import Mathlib

/-!
Verification of the sporket authenticated WebSocket message bus.

The development shallowly embeds the message envelope codec
(`src/message.ts`), the auto-reconnect controller (`src/Socket.ts`),
the client (`src/Sporket.ts`), the per-connection server session
(`src/ServerClient.ts`) and the server registry (`src/Server.ts`).

External collaborators that the specification places out of scope
(the HMAC-SHA-256 primitive, SHA-256, base64 and JSON encoders) are
abstracted as parameters bundled in the `Prims` structure; theorems
that depend on their behaviour take the relevant algebraic laws
(round-trip of base64, injectivity of the ideal MAC) as hypotheses,
and the witnesses instantiate them with concrete functions that
satisfy those laws.
-/

/-- Message types, from the `MessageType` enum in `src/types.ts`. -/
inductive MessageType where
  | AUTH
  | PING
  | DATA
  | ERROR
deriving DecidableEq, Repr

/-- Message status codes are numeric (`MessageStatus` enum in `src/types.ts`). -/
abbrev MessageStatus := Nat

def MessageStatus.OK : MessageStatus := 200

def MessageStatus.BADREQUEST : MessageStatus := 400

def MessageStatus.UNAUTHORIZED : MessageStatus := 401

def MessageStatus.TEAPOT : MessageStatus := 418

def MessageStatus.SERVERERROR : MessageStatus := 500

/-- Application payloads (`MessageData` in `src/types.ts`): JSON objects whose
values are primitives, arrays thereof, or nested objects. -/
inductive Json where
  | null
  | bool (b : Bool)
  | num (n : Int)
  | str (s : String)
  | arr (xs : List Json)
  | obj (fields : List (String × Json))

/-- The empty object literal returned by `parseMessage` on failure. -/
def Json.empty : Json := Json.obj []

/-- Property access `payload.key` on a parsed payload object. -/
def Json.get (j : Json) (key : String) : Option Json :=
  match j with
  | Json.obj fields => fields.lookup key
  | _ => none

/-- The wire envelope (`Message` interface in `src/types.ts`): `payload` is the
base64 wire string, `signature` the base64 HMAC tag (empty when unsigned). -/
structure Message where
  id : String
  now : Nat
  type : MessageType
  status : MessageStatus
  payload : String
  signature : String
deriving DecidableEq, Repr

/-- The external primitives used by the codec: HMAC-SHA-256 keyed by the raw
uuid bytes (key import is the identity on the uuid string), SHA-256, base64
encode/decode composed with UTF-8, and JSON stringify/parse. All are out of
scope of the specification and abstracted here; base64 decoding and JSON
parsing are partial (they throw in the source, modelled as `Option`). -/
structure Prims where
  hmac : String → String → String
  sha256 : String → String
  b64enc : String → String
  b64dec : String → Option String
  jstr : Json → String
  jparse : String → Option Json

/-- Digit character for one decimal digit, as rendered by JS number
to-string conversion. -/
def decDigitChar (d : Nat) : Char := Nat.digitChar d

/-- Decimal rendering of a non-negative integer, modelling the JS
number-to-string coercion applied to `message.now` in `message.id +
message.now + message.payload`: most-significant digit first, no leading
zeros, and `0` renders as the single character zero. -/
def decimalString (n : Nat) : String :=
  if n = 0 then "0" else String.mk (((Nat.digits 10 n).map decDigitChar).reverse)

/-- Left inverse of `decimalString`, used to prove it injective. -/
def decimalValue (s : String) : Nat :=
  Nat.ofDigits 10 (s.data.reverse.map (fun c => c.toNat - 48))

/-- The canonical byte string signed and verified by the codec:
`message.id + message.now + message.payload` (no delimiter), from
`signMessage`/`verifyMessage` in `src/message.ts`. -/
def canonicalString (m : Message) : String :=
  m.id ++ (decimalString m.now ++ m.payload)

/-- Function `parseMessage` from `src/message.ts`: base64-decode the wire payload,
UTF-8 decode, JSON-parse; any caught failure yields the empty object. -/
def parseMessage (pr : Prims) (m : Message) : Json :=
  match pr.b64dec m.payload with
  | none => Json.empty
  | some s =>
    match pr.jparse s with
    | none => Json.empty
    | some payload => payload

/-- Function `createMessage` from `src/message.ts`: fresh random UUID id (supplied here
as the `freshId` argument), current epoch milliseconds `now`, base64-encoded
JSON payload, blank signature. -/
def createMessage (pr : Prims) (freshId : String) (now : Nat) (payload : Json)
    (type : MessageType) (status : MessageStatus) : Message :=
  { id := freshId
    now := now
    type := type
    status := status
    payload := pr.b64enc (pr.jstr payload)
    signature := "" }

/-- Function `signMessage` from `src/message.ts`: assign the base64 HMAC tag over the
canonical string. -/
def signMessage (pr : Prims) (key : String) (m : Message) : Message :=
  { m with signature := pr.b64enc (pr.hmac key (canonicalString m)) }

/-- Function `verifyMessage` from `src/message.ts`: false when the key is not a
`CryptoKey` (modelled as `none`), false when base64-decoding the signature
throws, otherwise HMAC verification of the decoded tag over the canonical
string. -/
def verifyMessage (pr : Prims) (key : Option String) (m : Message) : Bool :=
  match key with
  | none => false
  | some k =>
    match pr.b64dec m.signature with
    | none => false
    | some tag => pr.hmac k (canonicalString m) == tag

/-- Socket configuration (`SocketProps` with the constructor defaults of
`src/Socket.ts`). -/
structure SocketConfig where
  autoConnect : Bool
  maxAttempts : Nat
  minWaitTime : Nat
  maxWaitTime : Nat
  waitExtend : Nat
deriving DecidableEq, Repr

/-- Defaults from the `Socket` constructor. -/
def defaultSocketConfig : SocketConfig :=
  { autoConnect := true
    maxAttempts := 10
    minWaitTime := 2000
    maxWaitTime := 10000
    waitExtend := 1000 }

/-- The mutable reconnect state of a `Socket`: current backoff, attempt
counter, whether a reconnect timer is pending, and whether the exhaustion
path has invoked `disconnect()`. -/
structure SocketState where
  waitTime : Nat
  attemptCount : Nat
  timerPending : Bool
  disconnected : Bool
deriving DecidableEq, Repr

/-- State set up by the `Socket` constructor: `waitTime = 1000`,
`attemptCount = 0`, no timer. -/
def socketInit : SocketState :=
  { waitTime := 1000
    attemptCount := 0
    timerPending := false
    disconnected := false }

/-- Method `Socket.handleOpen`: reset `waitTime` to `minWaitTime` and the attempt
counter to zero (and dispatch `connect`). -/
def handleOpen (cfg : SocketConfig) (s : SocketState) : SocketState :=
  { s with waitTime := cfg.minWaitTime, attemptCount := 0 }

/-- Method `Socket.handleClose`: clear the pending timer; if `maxAttempts > 0`,
post-increment the attempt counter and compare its previous value against
`maxAttempts`, disconnecting permanently when it had already reached the
maximum; stop if `autoConnect` is off; otherwise schedule `connect()` after
`waitTime` and grow `waitTime` by `waitExtend`, capped at `maxWaitTime`. -/
def handleClose (cfg : SocketConfig) (s : SocketState) : SocketState :=
  if 0 < cfg.maxAttempts then
    if cfg.maxAttempts ≤ s.attemptCount then
      { s with attemptCount := s.attemptCount + 1
               timerPending := false
               disconnected := true }
    else if cfg.autoConnect then
      { s with attemptCount := s.attemptCount + 1
               timerPending := true
               waitTime :=
                 if cfg.maxWaitTime < s.waitTime + cfg.waitExtend then
                   cfg.maxWaitTime
                 else s.waitTime + cfg.waitExtend }
    else { s with attemptCount := s.attemptCount + 1, timerPending := false }
  else if cfg.autoConnect then
    { s with timerPending := true
             waitTime :=
               if cfg.maxWaitTime < s.waitTime + cfg.waitExtend then
                 cfg.maxWaitTime
               else s.waitTime + cfg.waitExtend }
  else { s with timerPending := false }

/-- WebSocket lifecycle events observed by the reconnect controller. -/
inductive SocketEv where
  | opened
  | closed
deriving DecidableEq, Repr

/-- One event step of the reconnect controller. -/
def socketStep (cfg : SocketConfig) (s : SocketState) : SocketEv → SocketState
  | SocketEv.opened => handleOpen cfg s
  | SocketEv.closed => handleClose cfg s

/-- Run a sequence of open/close events from a state. -/
def socketRun (cfg : SocketConfig) (s : SocketState) (evs : List SocketEv) :
    SocketState :=
  evs.foldl (socketStep cfg) s

/-- Iterated consecutive close events from the freshly constructed state. -/
def socketCloseIter (cfg : SocketConfig) (k : Nat) : SocketState :=
  (handleClose cfg)^[k] socketInit

/-- Session state of a `Sporket` client: transport connectivity, the
authenticated flag, and the nullable HMAC key. -/
structure SporketState where
  isConnected : Bool
  isAuthenticated : Bool
  cryptoKey : Option String
deriving DecidableEq, Repr

/-- Method `Sporket.send` from `src/Sporket.ts`. Result `none` models a rejected
promise (the definite-assignment assertion passes a null key into
`crypto.subtle.sign`, which throws); `some (b, f)` models a normal return of
the boolean `b` having transmitted the optional frame `f`. -/
def Sporket.send (pr : Prims) (st : SporketState) (freshId : String)
    (now : Nat) (payload : Json) (type : MessageType) (status : MessageStatus) :
    Option (Bool × Option Message) :=
  if st.isConnected = false then some (false, none)
  else if type ≠ MessageType.AUTH ∧ st.isAuthenticated = false then
    some (false, none)
  else
    match st.cryptoKey with
    | none => none
    | some k =>
      let m := createMessage pr freshId now payload type status
      some (true, some (signMessage pr k m))

/-- Session state of a `ServerClient` (from `src/ServerClient.ts`): the
session uuid, transport connectivity, the authenticated flag, and the HMAC
key whose raw material is the uuid string. -/
structure ServerClientState where
  uuid : String
  isConnected : Bool
  isAuthenticated : Bool
  key : String
deriving DecidableEq, Repr

/-- Method `ServerClient.send`: false without transmitting when not connected,
otherwise build the envelope with `createMessage` (fresh random UUID id),
sign with the session key and transmit. -/
def ServerClient.send (pr : Prims) (st : ServerClientState) (freshId : String)
    (now : Nat) (type : MessageType) (status : MessageStatus) (payload : Json) :
    Bool × Option Message :=
  if st.isConnected = false then (false, none)
  else
    let m := createMessage pr freshId now payload type status
    (true, some (signMessage pr st.key m))

/-- Events a `ServerClient` dispatches while handling an inbound frame. -/
inductive SCEvent where
  | message (payload : Json)
  | authenticated

/-- Result of `ServerClient.#handleMessage`: the successor session state, the
frame transmitted by the reply `send` (if any), the event dispatched (if
any), and whether `disconnect()` was invoked on this path. -/
structure SCOutput where
  state : ServerClientState
  sent : Option Message
  emitted : Option SCEvent
  disconnected : Bool

/-- Reply payload for an invalid signature. -/
def badRequestPayload : Json :=
  Json.obj [("message", Json.str "Bad Request (invalid signature)")]

/-- Reply payload for unauthenticated data frames. -/
def unauthorizedPayload : Json :=
  Json.obj [("message", Json.str "Unauthorized (respond to challenge)")]

/-- Reply payload for a failed challenge. -/
def authFailedPayload : Json :=
  Json.obj [("message", Json.str "Unauthorized (authentication failed)")]

/-- Success payload sent on a correct challenge. -/
def successPayload : Json := Json.obj [("success", Json.bool true)]

/-- Method `ServerClient.handleAuth` (private in the source): parse the payload, require a string
`challenge` field, recompute the challenge from the password and the session
uuid, compare; on success mark authenticated, reply AUTH/200 success and
dispatch `authenticated`; any thrown condition is caught and answered with
ERROR/401. -/
def ServerClient.handleAuth (pr : Prims) (password : String)
    (st : ServerClientState) (freshId : String) (now : Nat) (m : Message) :
    SCOutput :=
  let payload := parseMessage pr m
  match payload.get "challenge" with
  | some (Json.str ch) =>
    let challenge := pr.b64enc (pr.sha256 (password ++ st.uuid))
    if challenge = ch then
      let st2 : ServerClientState := { st with isAuthenticated := true }
      let r := ServerClient.send pr st2 freshId now MessageType.AUTH
        MessageStatus.OK successPayload
      { state := st2, sent := r.2, emitted := some SCEvent.authenticated
        disconnected := false }
    else
      let r := ServerClient.send pr st freshId now MessageType.ERROR
        MessageStatus.UNAUTHORIZED authFailedPayload
      { state := st, sent := r.2, emitted := none, disconnected := false }
  | _ =>
    let r := ServerClient.send pr st freshId now MessageType.ERROR
      MessageStatus.UNAUTHORIZED authFailedPayload
    { state := st, sent := r.2, emitted := none, disconnected := false }

/-- Method `ServerClient.handleMessage` (private in the source): verify the signature of the inbound frame
with the session key; valid AUTH frames go to `#handleAuth`; other valid
frames are surfaced as `message` events when authenticated and answered with
ERROR/401 otherwise; an invalid signature is answered with a signed
ERROR/400 reply and nothing else changes. -/
def ServerClient.handleMessage (pr : Prims) (password : String)
    (st : ServerClientState) (freshId : String) (now : Nat) (m : Message) :
    SCOutput :=
  if verifyMessage pr (some st.key) m then
    if m.type = MessageType.AUTH then
      ServerClient.handleAuth pr password st freshId now m
    else if st.isAuthenticated then
      { state := st, sent := none
        emitted := some (SCEvent.message (parseMessage pr m))
        disconnected := false }
    else
      let r := ServerClient.send pr st freshId now MessageType.ERROR
        MessageStatus.UNAUTHORIZED unauthorizedPayload
      { state := st, sent := r.2, emitted := none, disconnected := false }
  else
    let r := ServerClient.send pr st freshId now MessageType.ERROR
      MessageStatus.BADREQUEST badRequestPayload
    { state := st, sent := r.2, emitted := none, disconnected := false }

/-- A registry entry (`Handle` in `src/Server.ts`), keyed by session uuid. -/
structure Handle where
  client : ServerClientState
deriving DecidableEq, Repr

/-- The server state relevant to the registry: the `Map` from session uuid to
handle, modelled as an association list with unique keys. -/
structure ServerState where
  handles : List (String × Handle)
deriving DecidableEq, Repr

/-- Primitive steps performed by `Server.#handleDisconnect`, in program
order: one `removeEventListener` per bridged event, the registry deletion,
and the dispatch of `clientdisconnect`. -/
inductive ServerAct where
  | removeListener (uuid : String) (event : String)
  | registryDelete (uuid : String)
  | dispatchClientDisconnect (uuid : String)
deriving DecidableEq, Repr

/-- Effect of one primitive step on the registry. -/
def applyAct (st : ServerState) : ServerAct → ServerState
  | ServerAct.registryDelete u =>
    { handles := st.handles.filter (fun kv => !(kv.1 == u)) }
  | _ => st

/-- Execute a sequence of primitive steps. -/
def runActs (st : ServerState) (acts : List ServerAct) : ServerState :=
  acts.foldl applyAct st

/-- Method `Server.handleDisconnect` (private in the source) as its ordered sequence of primitive steps:
nothing when the uuid is not registered; otherwise remove the four
listeners, delete the registry entry, then dispatch `clientdisconnect`. -/
def handleDisconnectActs (st : ServerState) (clientUuid : String) :
    List ServerAct :=
  if (st.handles.lookup clientUuid).isSome = false then []
  else
    [ServerAct.removeListener clientUuid "connect",
     ServerAct.removeListener clientUuid "disconnect",
     ServerAct.removeListener clientUuid "authenticated",
     ServerAct.removeListener clientUuid "message",
     ServerAct.registryDelete clientUuid,
     ServerAct.dispatchClientDisconnect clientUuid]

/-- Predicate: `waitTime` lies within the configured reconnect interval. -/
def waitTimeInRange (cfg : SocketConfig) (s : SocketState) : Prop :=
  cfg.minWaitTime ≤ s.waitTime ∧ s.waitTime ≤ cfg.maxWaitTime

/-- Concrete primitive instantiation used by evaluation witnesses: the MAC is
the identity on the canonical string (injective per key), base64 is the
identity with total decoding. -/
def idPrims : Prims where
  hmac := fun _ s => s
  sha256 := fun s => s
  b64enc := fun s => s
  b64dec := fun s => some s
  jstr := fun _ => ""
  jparse := fun _ => none

/-- Concrete primitive instantiation with an invertible one-point JSON codec,
used to evaluate the parse round-trip. -/
def c4Prims : Prims where
  hmac := fun _ s => s
  sha256 := fun s => s
  b64enc := fun s => "B" ++ s
  b64dec := fun s =>
    if s = "BJ" then some "J" else if s = "BX" then some "X" else none
  jstr := fun _ => "J"
  jparse := fun s => if s = "J" then some (Json.str "hello") else none

/-- Default configuration overridden with `maxAttempts = 1`. -/
def cfgMaxOne : SocketConfig := { defaultSocketConfig with maxAttempts := 1 }

/-- Default configuration overridden with `maxAttempts = 2`. -/
def cfgMaxTwo : SocketConfig := { defaultSocketConfig with maxAttempts := 2 }

/-- Concrete disconnected Sporket session. -/
def sporketDisconnected : SporketState :=
  { isConnected := false, isAuthenticated := false, cryptoKey := none }

/-- Concrete connected but unauthenticated Sporket session with a key. -/
def sporketUnauthenticated : SporketState :=
  { isConnected := true, isAuthenticated := false, cryptoKey := some "k" }

/-- Concrete connected Sporket session whose key is still null. -/
def sporketNullKey : SporketState :=
  { isConnected := true, isAuthenticated := false, cryptoKey := none }

/-- Concrete server-side session at session start. -/
def serverClientW : ServerClientState :=
  { uuid := "11111111-1111-4111-8111-111111111111"
    isConnected := true
    isAuthenticated := false
    key := "11111111-1111-4111-8111-111111111111" }

/-- A fresh random UUID drawn after the session uuid: distinct from it. -/
def freshUuidW : String := "22222222-2222-4222-8222-222222222222"

/-- The initial AUTH payload carrying the session uuid. -/
def authInitPayloadW : Json :=
  Json.obj [("uuid", Json.str "11111111-1111-4111-8111-111111111111")]

/-- A concrete unsigned message used by evaluation witnesses. -/
def messageW : Message :=
  { id := "aa", now := 7, type := MessageType.DATA, status := MessageStatus.OK
    payload := "pp", signature := "" }

/-- A concrete inbound frame carrying a forged signature. -/
def forgedFrameW : Message :=
  { id := "aa", now := 0, type := MessageType.DATA, status := MessageStatus.OK
    payload := "pp", signature := "zz" }

/-- A concrete envelope whose payload is the one-point codec encoding. -/
def messageGoodPayloadW : Message :=
  { id := "aa", now := 0, type := MessageType.DATA, status := MessageStatus.OK
    payload := "BJ", signature := "" }

/-- A concrete envelope whose payload fails base64 decoding. -/
def messageBadB64W : Message :=
  { id := "aa", now := 0, type := MessageType.DATA, status := MessageStatus.OK
    payload := "zz", signature := "" }

/-- A concrete envelope whose payload decodes but fails JSON parsing. -/
def messageBadJsonW : Message :=
  { id := "aa", now := 0, type := MessageType.DATA, status := MessageStatus.OK
    payload := "BX", signature := "" }

/-- A concrete server registry holding one session. -/
def serverStateW : ServerState :=
  { handles := [("11111111-1111-4111-8111-111111111111",
                 { client := serverClientW })] }

/-! ### Helper lemmas -/

theorem decDigitChar_decode : ∀ d < 10, (decDigitChar d).toNat - 48 = d := by
  decide

theorem decimalValue_decimalString (n : Nat) :
    decimalValue (decimalString n) = n := by
  by_cases h : n = 0
  · subst h; decide
  · unfold decimalString decimalValue
    rw [if_neg h]
    simp only [List.reverse_reverse, List.map_map]
    have hmap : (Nat.digits 10 n).map ((fun c => c.toNat - 48) ∘ decDigitChar)
        = (Nat.digits 10 n).map id := by
      apply List.map_congr_left
      intro d hd
      have hlt : d < 10 := Nat.digits_lt_base (by norm_num) hd
      simpa using decDigitChar_decode d hlt
    rw [hmap, List.map_id, Nat.ofDigits_digits]

theorem decimalString_injective : Function.Injective decimalString := by
  intro a b h
  have h2 := congrArg decimalValue h
  rwa [decimalValue_decimalString, decimalValue_decimalString] at h2

theorem string_append_cancel_right {a b t : String} (h : a ++ t = b ++ t) :
    a = b := by
  have hd : a.data ++ t.data = b.data ++ t.data := by
    have h2 := congrArg String.data h
    simpa [String.data_append] using h2
  have h3 := List.append_cancel_right hd
  cases a; cases b; simp_all

theorem string_append_cancel_left {a b t : String} (h : t ++ a = t ++ b) :
    a = b := by
  have hd : t.data ++ a.data = t.data ++ b.data := by
    have h2 := congrArg String.data h
    simpa [String.data_append] using h2
  have h3 := List.append_cancel_left hd
  cases a; cases b; simp_all

theorem canonicalString_ne_of_id_ne (m : Message) {id2 : String}
    (h : id2 ≠ m.id) :
    canonicalString { m with id := id2 } ≠ canonicalString m := by
  intro hc
  exact h (string_append_cancel_right hc)

theorem canonicalString_ne_of_now_ne (m : Message) {now2 : Nat}
    (h : now2 ≠ m.now) :
    canonicalString { m with now := now2 } ≠ canonicalString m := by
  intro hc
  unfold canonicalString at hc
  have h1 := string_append_cancel_left hc
  have h2 := string_append_cancel_right h1
  exact h (decimalString_injective h2)

theorem canonicalString_ne_of_payload_ne (m : Message) {p2 : String}
    (h : p2 ≠ m.payload) :
    canonicalString { m with payload := p2 } ≠ canonicalString m := by
  intro hc
  unfold canonicalString at hc
  have h1 := string_append_cancel_left hc
  exact h (string_append_cancel_left h1)

theorem canonicalString_signMessage (pr : Prims) (key : String) (m : Message) :
    canonicalString (signMessage pr key m) = canonicalString m := rfl

/-! ### Claims -/

/-- Claim C1: signing a message with an HMAC key makes it verify with the
same key, where the tag is computed over the undecoded concatenation
`id ++ decimal(now) ++ payload`; and afterwards mutating any one of the
fields `id`, `now` or `payload` makes verification fail. Stated for any
base64 codec satisfying the decode-encode round-trip and any MAC that is
injective per key (the ideal-MAC reading of tag unforgeability; the real
HMAC-SHA-256 primitive is outside the repository). -/
theorem c1_sign_verify (pr : Prims) (key : String) (m : Message)
    (hb : ∀ s, pr.b64dec (pr.b64enc s) = some s)
    (hinj : Function.Injective (pr.hmac key)) :
    verifyMessage pr (some key) (signMessage pr key m) = true
    ∧ (∀ id2, id2 ≠ m.id →
        verifyMessage pr (some key) { signMessage pr key m with id := id2 } = false)
    ∧ (∀ now2, now2 ≠ m.now →
        verifyMessage pr (some key) { signMessage pr key m with now := now2 } = false)
    ∧ (∀ p2, p2 ≠ m.payload →
        verifyMessage pr (some key) { signMessage pr key m with payload := p2 } = false) := by
  refine ⟨?_, ?_, ?_, ?_⟩
  · simp only [verifyMessage, signMessage, hb, beq_iff_eq]
    rfl
  · intro id2 hne
    have hcan : canonicalString { signMessage pr key m with id := id2 }
        ≠ canonicalString m := canonicalString_ne_of_id_ne m hne
    simp only [verifyMessage, signMessage, hb]
    simp only [beq_eq_false_iff_ne, ne_eq]
    intro h
    exact hcan (hinj h)
  · intro now2 hne
    have hcan : canonicalString { signMessage pr key m with now := now2 }
        ≠ canonicalString m := canonicalString_ne_of_now_ne m hne
    simp only [verifyMessage, signMessage, hb]
    simp only [beq_eq_false_iff_ne, ne_eq]
    intro h
    exact hcan (hinj h)
  · intro p2 hne
    have hcan : canonicalString { signMessage pr key m with payload := p2 }
        ≠ canonicalString m := canonicalString_ne_of_payload_ne m hne
    simp only [verifyMessage, signMessage, hb]
    simp only [beq_eq_false_iff_ne, ne_eq]
    intro h
    exact hcan (hinj h)

/-- Claim C1 witness: evaluation of sign/verify and the three mutations at a
concrete message with concrete law-satisfying primitives. -/
theorem c1_sign_verify_witness :
    verifyMessage idPrims (some "k") (signMessage idPrims "k" messageW) = true
    ∧ verifyMessage idPrims (some "k")
        { signMessage idPrims "k" messageW with id := "zz" } = false
    ∧ verifyMessage idPrims (some "k")
        { signMessage idPrims "k" messageW with now := 8 } = false
    ∧ verifyMessage idPrims (some "k")
        { signMessage idPrims "k" messageW with payload := "qq" } = false := by
  have h := c1_sign_verify idPrims "k" messageW (fun s => rfl) (fun a b hab => hab)
  exact ⟨h.1, h.2.1 "zz" (by decide), h.2.2.1 8 (by decide),
         h.2.2.2 "qq" (by decide)⟩

/-- Claim C4: `parseMessage` is total; an envelope whose payload is the
encoding of a payload `P` parses back to `P` (given the base64 and JSON
codec round-trips, which hold for the external encoders), and an envelope
whose payload fails base64 decoding or JSON parsing yields the empty object
rather than an error. -/
theorem c4_parse_total_roundtrip (pr : Prims) :
    (∀ (p : Json) (m : Message),
        pr.b64dec (pr.b64enc (pr.jstr p)) = some (pr.jstr p) →
        pr.jparse (pr.jstr p) = some p →
        m.payload = pr.b64enc (pr.jstr p) →
        parseMessage pr m = p)
    ∧ (∀ m : Message, pr.b64dec m.payload = none →
        parseMessage pr m = Json.empty)
    ∧ (∀ (m : Message) (s : String), pr.b64dec m.payload = some s →
        pr.jparse s = none → parseMessage pr m = Json.empty) := by
  refine ⟨?_, ?_, ?_⟩
  · intro p m hb hj hm
    simp [parseMessage, hm, hb, hj]
  · intro m hm
    simp [parseMessage, hm]
  · intro m s hb hj
    simp [parseMessage, hb, hj]

/-- Claim C4 witness: evaluation of the round-trip and of both failure
fallbacks at concrete envelopes under the one-point codec. -/
theorem c4_parse_total_roundtrip_witness :
    parseMessage c4Prims messageGoodPayloadW = Json.str "hello"
    ∧ parseMessage c4Prims messageBadB64W = Json.empty
    ∧ parseMessage c4Prims messageBadJsonW = Json.empty := by
  have h := c4_parse_total_roundtrip c4Prims
  exact ⟨h.1 (Json.str "hello") messageGoodPayloadW rfl rfl rfl,
         h.2.1 messageBadB64W rfl,
         h.2.2 messageBadJsonW "X" rfl rfl⟩

/-- Claim C7: `Sporket.send` returns false and transmits nothing when the
WebSocket is not connected, and likewise when the type is not AUTH and the
client is not authenticated; hence no DATA send succeeds while
`isAuthenticated` is still false, i.e. before the `authenticated` event has
fired. -/
theorem c7_send_gating (pr : Prims) (st : SporketState) (freshId : String)
    (now : Nat) (payload : Json) (type : MessageType) (status : MessageStatus) :
    (st.isConnected = false →
      Sporket.send pr st freshId now payload type status = some (false, none))
    ∧ (type ≠ MessageType.AUTH → st.isAuthenticated = false →
      Sporket.send pr st freshId now payload type status = some (false, none)) := by
  constructor
  · intro h
    simp [Sporket.send, h]
  · intro ht ha
    unfold Sporket.send
    by_cases hc : st.isConnected = false
    · rw [if_pos hc]
    · rw [if_neg hc, if_pos ⟨ht, ha⟩]

/-- Claim C7 witness: evaluation at a disconnected session and at a
connected unauthenticated session. -/
theorem c7_send_gating_witness :
    Sporket.send idPrims sporketDisconnected "i" 0 Json.empty MessageType.DATA
      MessageStatus.OK = some (false, none)
    ∧ Sporket.send idPrims sporketUnauthenticated "i" 0 Json.empty
      MessageType.DATA MessageStatus.OK = some (false, none) :=
  ⟨(c7_send_gating idPrims sporketDisconnected "i" 0 Json.empty
      MessageType.DATA MessageStatus.OK).1 rfl,
   (c7_send_gating idPrims sporketUnauthenticated "i" 0 Json.empty
      MessageType.DATA MessageStatus.OK).2 (by decide) rfl⟩

/-- Claim C10: a connected `Sporket` whose session key is still null does
not get a boolean back from `send(payload, AUTH, status)`: the null key
reaches `crypto.subtle.sign` and the promise rejects (modelled as `none`). -/
theorem c10_null_key_auth_send_raises (pr : Prims) (st : SporketState)
    (freshId : String) (now : Nat) (payload : Json) (status : MessageStatus)
    (hc : st.isConnected = true) (hk : st.cryptoKey = none) :
    Sporket.send pr st freshId now payload MessageType.AUTH status = none := by
  simp [Sporket.send, hc, hk]

/-- Claim C10 witness: evaluation at a concrete connected session with a
null key. -/
theorem c10_null_key_auth_send_raises_witness :
    Sporket.send idPrims sporketNullKey "i" 0 Json.empty MessageType.AUTH
      MessageStatus.OK = none :=
  c10_null_key_auth_send_raises idPrims sporketNullKey "i" 0 Json.empty
    MessageStatus.OK rfl rfl

/-- Claim C2 counterexample: the first AUTH envelope a `ServerClient` sends
at session start is built by `createMessage`, so its `id` is the fresh
random UUID drawn at send time, not the session uuid: at a concrete session
the sent frame's id differs from the session uuid. -/
theorem c2_first_auth_id_counterexample :
    (ServerClient.send idPrims serverClientW freshUuidW 5 MessageType.AUTH
        MessageStatus.OK authInitPayloadW).2.map Message.id = some freshUuidW
    ∧ freshUuidW ≠ serverClientW.uuid :=
  ⟨rfl, by decide⟩

/-- Claim C2 amended: every envelope sent by `ServerClient.send` — including
the AUTH message at session start — is built by `createMessage` and carries
the fresh random UUID drawn at send time as its `id`; the session uuid is
never used as an envelope id. -/
theorem c2_amended_fresh_id (pr : Prims) (st : ServerClientState)
    (freshId : String) (now : Nat) (type : MessageType)
    (status : MessageStatus) (payload : Json)
    (hc : st.isConnected = true) :
    (ServerClient.send pr st freshId now type status payload).2
      = some (signMessage pr st.key
          (createMessage pr freshId now payload type status))
    ∧ ∀ mm, (ServerClient.send pr st freshId now type status payload).2
        = some mm → mm.id = freshId := by
  have hsend : ServerClient.send pr st freshId now type status payload
      = (true, some (signMessage pr st.key
          (createMessage pr freshId now payload type status))) := by
    unfold ServerClient.send
    rw [if_neg (by simp [hc])]
  refine ⟨by rw [hsend], ?_⟩
  intro mm hmm
  rw [hsend] at hmm
  injection hmm with h2
  rw [← h2]
  rfl

/-- Claim C2 amended witness: evaluation at a concrete connected session. -/
theorem c2_amended_fresh_id_witness :
    (ServerClient.send idPrims serverClientW freshUuidW 5 MessageType.AUTH
        MessageStatus.OK authInitPayloadW).2
      = some (signMessage idPrims serverClientW.key
          (createMessage idPrims freshUuidW 5 authInitPayloadW MessageType.AUTH
            MessageStatus.OK)) :=
  (c2_amended_fresh_id idPrims serverClientW freshUuidW 5 MessageType.AUTH
    MessageStatus.OK authInitPayloadW rfl).1

/-- Preservation of the wait-time interval by one event under the default
configuration. -/
theorem waitTime_step_preserved (s : SocketState) (e : SocketEv)
    (h : waitTimeInRange defaultSocketConfig s) :
    waitTimeInRange defaultSocketConfig (socketStep defaultSocketConfig s e) := by
  obtain ⟨h1, h2⟩ := h
  cases e
  · constructor <;> simp [socketStep, handleOpen, defaultSocketConfig]
  · unfold socketStep handleClose
    simp only [defaultSocketConfig] at h1 h2 ⊢
    constructor <;> (split_ifs <;> simp_all <;> omega)

/-- The interval invariant transported along any event sequence under the
default configuration. -/
theorem socketRun_inv (evs : List SocketEv) (s : SocketState)
    (h : waitTimeInRange defaultSocketConfig s) :
    waitTimeInRange defaultSocketConfig (socketRun defaultSocketConfig s evs) := by
  induction evs generalizing s with
  | nil => exact h
  | cons e rest ih => exact ih _ (waitTime_step_preserved s e h)

/-- Claim C3 counterexample: the freshly constructed socket is a reachable
state (the empty event sequence) whose `waitTime` is 1000, strictly below
the default `minWaitTime` of 2000. -/
theorem c3_initial_wait_counterexample :
    socketRun defaultSocketConfig socketInit [] = socketInit
    ∧ socketInit.waitTime < defaultSocketConfig.minWaitTime := by
  constructor
  · rfl
  · decide

/-- Claim C3 amended: under the default configuration, every state reached
from construction by at least one open or close event has `waitTime` in the
closed interval from `minWaitTime` to `maxWaitTime`; only the
freshly-constructed state (initial `waitTime = 1000`) lies below it. -/
theorem c3_amended_wait_in_range (e : SocketEv) (evs : List SocketEv) :
    waitTimeInRange defaultSocketConfig
      (socketRun defaultSocketConfig socketInit (e :: evs)) := by
  have h1 : waitTimeInRange defaultSocketConfig
      (socketStep defaultSocketConfig socketInit e) := by
    cases e <;> exact ⟨by decide, by decide⟩
  have h2 := socketRun_inv evs (socketStep defaultSocketConfig socketInit e) h1
  simpa [socketRun, List.foldl_cons] using h2


/-- The scheduling branch of `handleClose`: below the attempt cap with
auto-reconnect on, the counter increments, a reconnect is scheduled, and the
backoff grows capped at `maxWaitTime`. -/
theorem handleClose_sched (cfg : SocketConfig) (s : SocketState)
    (hM : 0 < cfg.maxAttempts) (hlt : s.attemptCount < cfg.maxAttempts)
    (hauto : cfg.autoConnect = true) :
    handleClose cfg s
      = { s with attemptCount := s.attemptCount + 1
                 timerPending := true
                 waitTime :=
                   if cfg.maxWaitTime < s.waitTime + cfg.waitExtend then
                     cfg.maxWaitTime
                   else s.waitTime + cfg.waitExtend } := by
  unfold handleClose
  rw [if_pos hM, if_neg (by omega), if_pos hauto]

/-- The exhaustion branch of `handleClose`: at or above the attempt cap the
socket disconnects permanently and no reconnect is pending. -/
theorem handleClose_exhausted (cfg : SocketConfig) (s : SocketState)
    (hM : 0 < cfg.maxAttempts) (hge : cfg.maxAttempts ≤ s.attemptCount) :
    handleClose cfg s
      = { s with attemptCount := s.attemptCount + 1
                 timerPending := false
                 disconnected := true } := by
  unfold handleClose
  rw [if_pos hM, if_pos hge]

/-- Behaviour of the first `maxAttempts` consecutive closes from the fresh
state: each one increments the counter, schedules a reconnect, and does not
disconnect. -/
theorem socketCloseIter_below_max (cfg : SocketConfig)
    (hM : 0 < cfg.maxAttempts) (hauto : cfg.autoConnect = true) :
    ∀ k, k ≤ cfg.maxAttempts →
      (socketCloseIter cfg k).attemptCount = k
      ∧ (socketCloseIter cfg k).disconnected = false
      ∧ (1 ≤ k → (socketCloseIter cfg k).timerPending = true) := by
  intro k
  induction k with
  | zero =>
    intro _
    exact ⟨rfl, rfl, fun h1 => absurd h1 (by omega)⟩
  | succ n ih =>
    intro hk
    obtain ⟨hc, hd, _⟩ := ih (Nat.le_of_succ_le hk)
    have hstep : socketCloseIter cfg (n + 1)
        = handleClose cfg (socketCloseIter cfg n) := by
      unfold socketCloseIter
      rw [Function.iterate_succ_apply']
    rw [hstep, handleClose_sched cfg _ hM (by omega) hauto]
    exact ⟨by simp [hc], by simp [hd], fun _ => rfl⟩

/-- Claim C5 counterexample: with `maxAttempts = 1`, the first consecutive
close does not disconnect; it schedules another reconnect timer. -/
theorem c5_mth_close_counterexample :
    (socketCloseIter cfgMaxOne 1).timerPending = true
    ∧ (socketCloseIter cfgMaxOne 1).disconnected = false := by
  decide

/-- Claim C5 amended: with `maxAttempts = M > 0` and auto-reconnect on, each
of the first M consecutive closes still schedules a reconnect; it is the
(M+1)-th consecutive close (whose pre-increment attempt count has reached M)
that triggers permanent disconnect, after which no reconnect is pending. -/
theorem c5_amended_attempt_cap (cfg : SocketConfig)
    (hM : 0 < cfg.maxAttempts) (hauto : cfg.autoConnect = true) :
    (∀ k, 1 ≤ k → k ≤ cfg.maxAttempts →
      (socketCloseIter cfg k).timerPending = true
      ∧ (socketCloseIter cfg k).disconnected = false)
    ∧ (socketCloseIter cfg (cfg.maxAttempts + 1)).disconnected = true
    ∧ (socketCloseIter cfg (cfg.maxAttempts + 1)).timerPending = false := by
  have hspec := socketCloseIter_below_max cfg hM hauto
  refine ⟨?_, ?_⟩
  · intro k h1 h2
    obtain ⟨_, hd, ht⟩ := hspec k h2
    exact ⟨ht h1, hd⟩
  · obtain ⟨hc, _, _⟩ := hspec cfg.maxAttempts (Nat.le_refl _)
    have hstep : socketCloseIter cfg (cfg.maxAttempts + 1)
        = handleClose cfg (socketCloseIter cfg cfg.maxAttempts) := by
      unfold socketCloseIter
      rw [Function.iterate_succ_apply']
    rw [hstep, handleClose_exhausted cfg _ hM (by omega)]
    exact ⟨rfl, rfl⟩

/-- Claim C5 amended witness: with `maxAttempts = 2`, the second close still
schedules a reconnect and the third close disconnects permanently. -/
theorem c5_amended_attempt_cap_witness :
    ((socketCloseIter cfgMaxTwo 2).timerPending = true
      ∧ (socketCloseIter cfgMaxTwo 2).disconnected = false)
    ∧ (socketCloseIter cfgMaxTwo 3).disconnected = true
    ∧ (socketCloseIter cfgMaxTwo 3).timerPending = false :=
  ⟨(c5_amended_attempt_cap cfgMaxTwo (by decide) rfl).1 2 (by decide) (by decide),
   (c5_amended_attempt_cap cfgMaxTwo (by decide) rfl).2⟩

/-- The scheduling branch of `handleClose` when `maxAttempts` is zero. -/
theorem handleClose_sched_zero (cfg : SocketConfig) (s : SocketState)
    (hM : cfg.maxAttempts = 0) (hauto : cfg.autoConnect = true) :
    handleClose cfg s
      = { s with timerPending := true
                 waitTime :=
                   if cfg.maxWaitTime < s.waitTime + cfg.waitExtend then
                     cfg.maxWaitTime
                   else s.waitTime + cfg.waitExtend } := by
  unfold handleClose
  rw [if_neg (by omega), if_pos hauto]

/-- One clamped growth step in terms of `min`. -/
theorem clamp_step_min (w a mx e : Nat) (hw : w = min a mx) :
    (if mx < w + e then mx else w + e) = min (a + e) mx := by
  split_ifs with h <;> omega

/-- Backoff growth along iterated scheduling closes, relative to any `min`
presentation of the current wait time. -/
theorem handleClose_iter_wait (cfg : SocketConfig)
    (hauto : cfg.autoConnect = true) :
    ∀ (N : Nat) (s : SocketState) (a : Nat),
      (cfg.maxAttempts = 0 ∨ s.attemptCount + N ≤ cfg.maxAttempts) →
      s.waitTime = min a cfg.maxWaitTime →
      ((handleClose cfg)^[N] s).waitTime
        = min (a + N * cfg.waitExtend) cfg.maxWaitTime := by
  intro N
  induction N with
  | zero =>
    intro s a _ hw
    simpa using hw
  | succ n ih =>
    intro s a hcnt hw
    rw [Function.iterate_succ_apply]
    have harith : (a + cfg.waitExtend) + n * cfg.waitExtend
        = a + (n + 1) * cfg.waitExtend := by ring
    rcases hcnt with h0 | hle
    · rw [handleClose_sched_zero cfg s h0 hauto]
      have h2 := ih { s with timerPending := true
                             waitTime :=
                               if cfg.maxWaitTime < s.waitTime + cfg.waitExtend
                               then cfg.maxWaitTime
                               else s.waitTime + cfg.waitExtend }
        (a + cfg.waitExtend) (Or.inl h0)
        (by simpa using clamp_step_min s.waitTime a cfg.maxWaitTime
              cfg.waitExtend hw)
      rw [h2, harith]
    · have hM : 0 < cfg.maxAttempts := by omega
      rw [handleClose_sched cfg s hM (by omega) hauto]
      have h2 := ih { s with attemptCount := s.attemptCount + 1
                             timerPending := true
                             waitTime :=
                               if cfg.maxWaitTime < s.waitTime + cfg.waitExtend
                               then cfg.maxWaitTime
                               else s.waitTime + cfg.waitExtend }
        (a + cfg.waitExtend) (Or.inr (by simp; omega))
        (by simpa using clamp_step_min s.waitTime a cfg.maxWaitTime
              cfg.waitExtend hw)
      rw [h2, harith]

/-- Claim C6: starting from `waitTime = minWaitTime` (the value set by the
open handler), N subsequent close events that each schedule a reconnect
leave `waitTime = min (minWaitTime + N * waitExtend) maxWaitTime` (for a
well-formed configuration with `minWaitTime ≤ maxWaitTime`; the hypotheses
on `autoConnect` and the attempt count make every close take the scheduling
branch). -/
theorem c6_backoff_growth (cfg : SocketConfig) (s : SocketState) (N : Nat)
    (hrange : cfg.minWaitTime ≤ cfg.maxWaitTime)
    (hauto : cfg.autoConnect = true)
    (hw : s.waitTime = cfg.minWaitTime)
    (hcnt : cfg.maxAttempts = 0 ∨ s.attemptCount + N ≤ cfg.maxAttempts) :
    ((handleClose cfg)^[N] s).waitTime
      = min (cfg.minWaitTime + N * cfg.waitExtend) cfg.maxWaitTime := by
  exact handleClose_iter_wait cfg hauto N s cfg.minWaitTime hcnt (by omega)

/-- Claim C6 witness: under the default configuration, nine scheduling
closes after an open grow the backoff from 2000 to the cap 10000. -/
theorem c6_backoff_growth_witness :
    ((handleClose defaultSocketConfig)^[9]
        (handleOpen defaultSocketConfig socketInit)).waitTime
      = min (defaultSocketConfig.minWaitTime
              + 9 * defaultSocketConfig.waitExtend)
          defaultSocketConfig.maxWaitTime :=
  c6_backoff_growth defaultSocketConfig
    (handleOpen defaultSocketConfig socketInit) 9 (by decide) rfl rfl
    (Or.inr (by decide))

/-- Claim C8: an inbound frame whose signature fails verification against
the session key is answered with a signed ERROR reply of status 400 carrying
the bad-request payload, while the session state is unchanged, nothing else
is emitted, and `disconnect()` is not invoked. -/
theorem c8_invalid_signature_reply (pr : Prims) (password : String)
    (st : ServerClientState) (freshId : String) (now : Nat) (m : Message)
    (hv : verifyMessage pr (some st.key) m = false)
    (hc : st.isConnected = true) :
    (ServerClient.handleMessage pr password st freshId now m).state = st
    ∧ (ServerClient.handleMessage pr password st freshId now m).disconnected
        = false
    ∧ (ServerClient.handleMessage pr password st freshId now m).emitted = none
    ∧ (ServerClient.handleMessage pr password st freshId now m).sent
        = some (signMessage pr st.key
            (createMessage pr freshId now badRequestPayload MessageType.ERROR
              MessageStatus.BADREQUEST)) := by
  have hsend : ServerClient.send pr st freshId now MessageType.ERROR
      MessageStatus.BADREQUEST badRequestPayload
      = (true, some (signMessage pr st.key
          (createMessage pr freshId now badRequestPayload MessageType.ERROR
            MessageStatus.BADREQUEST))) := by
    unfold ServerClient.send
    rw [if_neg (by simp [hc])]
  have hmsg : ServerClient.handleMessage pr password st freshId now m
      = { state := st
          sent := (ServerClient.send pr st freshId now MessageType.ERROR
            MessageStatus.BADREQUEST badRequestPayload).2
          emitted := none
          disconnected := false } := by
    unfold ServerClient.handleMessage
    rw [hv]
    simp
  rw [hmsg, hsend]
  exact ⟨rfl, rfl, rfl, rfl⟩

/-- Claim C8 witness: evaluation at a concrete session and a frame with a
forged signature. -/
theorem c8_invalid_signature_reply_witness :
    (ServerClient.handleMessage idPrims "pw" serverClientW "f1" 0
        forgedFrameW).sent
      = some (signMessage idPrims serverClientW.key
          (createMessage idPrims "f1" 0 badRequestPayload MessageType.ERROR
            MessageStatus.BADREQUEST))
    ∧ (ServerClient.handleMessage idPrims "pw" serverClientW "f1" 0
        forgedFrameW).state = serverClientW
    ∧ (ServerClient.handleMessage idPrims "pw" serverClientW "f1" 0
        forgedFrameW).disconnected = false := by
  have h := c8_invalid_signature_reply idPrims "pw" serverClientW "f1" 0
    forgedFrameW (by decide) rfl
  exact ⟨h.2.2.2, h.1, h.2.1⟩

/-- Deleting a key from the registry makes its lookup fail. -/
theorem lookup_filter_beq_none (l : List (String × Handle)) (u : String) :
    (l.filter (fun kv => !(kv.1 == u))).lookup u = none := by
  induction l with
  | nil => rfl
  | cons kv rest ih =>
    by_cases h : kv.1 = u
    · simp [List.filter_cons, h, ih]
    · have hne : (u == kv.1) = false := beq_eq_false_iff_ne.mpr (Ne.symm h)
      simp [List.filter_cons, h, List.lookup, hne, ih]

/-- Claim C9: when a registered session disconnects, the server first
removes the four event listeners and deletes the registry entry, and only
then dispatches `clientdisconnect`; executing the steps preceding the
dispatch leaves no registry entry for the uuid (for an unregistered uuid
nothing happens at all). -/
theorem c9_registry_removed_before_dispatch (st : ServerState) (u : String) :
    (handleDisconnectActs st u = [] ∧ (st.handles.lookup u).isSome = false)
    ∨ (handleDisconnectActs st u
        = [ServerAct.removeListener u "connect",
           ServerAct.removeListener u "disconnect",
           ServerAct.removeListener u "authenticated",
           ServerAct.removeListener u "message",
           ServerAct.registryDelete u]
          ++ [ServerAct.dispatchClientDisconnect u]
       ∧ ((runActs st
            [ServerAct.removeListener u "connect",
             ServerAct.removeListener u "disconnect",
             ServerAct.removeListener u "authenticated",
             ServerAct.removeListener u "message",
             ServerAct.registryDelete u]).handles.lookup u) = none) := by
  unfold handleDisconnectActs
  split_ifs with h
  · exact Or.inl ⟨rfl, h⟩
  · refine Or.inr ⟨rfl, ?_⟩
    show ((runActs st _).handles.lookup u) = none
    unfold runActs
    simp only [List.foldl_cons, List.foldl_nil, applyAct]
    exact lookup_filter_beq_none st.handles u
